import Mathlib

/-!
Shallow embedding of `src/brainrender_napari/widgets/atlas_manager_view.py`.

The file under verification is a Qt table view (`AtlasManagerView`) that lets
users download and update brainglobe atlases.  We embed its data model and
operations as follows.

* The external atlas API (`brainglobe_atlasapi.list_atlases`) is modelled by a
  record `AtlasAPI` holding the current answers of `get_downloaded_atlases()`
  (a list of atlas names), `get_atlases_lastversions()` (a mapping from atlas
  name to its `"updated"` boolean, represented as an association list), and the
  key set of `get_all_atlases_lastversions()` (a list of names).  The API is an
  opaque external collaborator; each of its query functions simply reads the
  corresponding field of the record.

* The view's Python attributes `cached_downloaded_atlases` and
  `cached_atlas_versions` are modelled as `Option`-valued fields: `none` means
  the attribute has never been assigned (so that reading it raises
  `AttributeError`, as in Python), `some v` means it holds `v`.

* Qt's current selection is modelled by a `ModelIndex` carrying the validity
  flag of `selectionModel().currentIndex()` and the value of the row's
  column 0 (the hidden "Raw name" column), which is what
  `siblingAtColumn(0)` followed by `model().data(...)` returns.

* Fallible Python code is embedded in `Except PyError`: an `assert` failure,
  an `AttributeError` on an unset attribute, a `KeyError` on a missing dict
  key and a raised `ValueError` become the corresponding errors.

* Methods are state passing: a handler takes the view state and returns the
  new view state together with its observable output.  A method that performs
  no attribute assignment returns the state unchanged, mirroring the Python
  method bodies, which contain no attribute writes.

* Signals (`download_atlas_confirmed`, `update_atlas_confirmed`,
  `progress_updated`) are modelled as `Emission` values; `emit` produces one
  `Emission` in an output list.  A dialog is the record of its constructor
  arguments plus the slot connected to its ok button; clicking ok invokes that
  slot.  A started worker is the record built by `_start_worker`; the host
  toolkit invokes `Worker.update_fn` once per progress callback of the
  external operation and `Worker.onReturned` once when the operation returns.
  `Worker.run` composes a whole background task: the progress callbacks for a
  given list of `(completed, total)` ticks, then the return.  `install_atlas`
  and `update_atlas` themselves are external network operations; only their
  identity (`Operation`) and their observable callbacks/result matter here, so
  a run is parametrised by the tick list and the result value.

* `format_atlas_name` lives in `brainrender_napari/utils/formatting.py`,
  outside the file in scope; the spec only ever refers to its output as
  "<formatted name>".  It is therefore a parameter `fmt : String → String` of
  the embedded `get_tooltip_text`.
-/

namespace AtlasManager

/-- Python errors that the embedded code can raise. -/
inductive PyError where
  | assertionError
  | attributeError (attr : String)
  | keyError (key : String)
  | valueError (msg : String)
deriving DecidableEq

/-- Payloads of the view's three Qt signals. -/
inductive Emission where
  | downloadAtlasConfirmed (result : String)
  | updateAtlasConfirmed (result : String)
  | progressUpdated (completed total : Nat) (atlasName : String)
      (operationType : String)
deriving DecidableEq

/-- The external long-running operation passed to `_start_worker`:
`install_atlas` or `update_atlas` from `brainglobe_atlasapi.update_atlases`. -/
inductive Operation where
  | installAtlas
  | updateAtlas
deriving DecidableEq

/-- Which of the two completion signals `_start_worker` receives as its
`signal` argument. -/
inductive ConfirmSignal where
  | downloadAtlasConfirmed
  | updateAtlasConfirmed
deriving DecidableEq

/-- `signal.emit(result)` for the two completion signals. -/
def ConfirmSignal.emit : ConfirmSignal → String → Emission
  | .downloadAtlasConfirmed, r => Emission.downloadAtlasConfirmed r
  | .updateAtlasConfirmed, r => Emission.updateAtlasConfirmed r

/-- Which slot a dialog's ok button is connected to. -/
inductive OkSlot where
  | onDownloadAtlasConfirmed
  | onUpdateAtlasConfirmed
deriving DecidableEq

/-- State of the external atlas API, read by
`get_downloaded_atlases`, `get_atlases_lastversions` and
`get_all_atlases_lastversions`. -/
structure AtlasAPI where
  downloaded_atlases : List String
  atlases_lastversions : List (String × Bool)
  all_atlases_lastversions : List String
deriving DecidableEq

/-- `get_downloaded_atlases()`. -/
def get_downloaded_atlases (api : AtlasAPI) : List String :=
  api.downloaded_atlases

/-- `get_atlases_lastversions()`: mapping atlas name to its
`"updated"` field. -/
def get_atlases_lastversions (api : AtlasAPI) : List (String × Bool) :=
  api.atlases_lastversions

/-- The key set of `get_all_atlases_lastversions()`. -/
def get_all_atlases_lastversions_keys (api : AtlasAPI) : List String :=
  api.all_atlases_lastversions

/-- The current selection: validity flag of
`selectionModel().currentIndex()` together with the value of column 0
(the hidden "Raw name" column) of the current row. -/
structure ModelIndex where
  isValid : Bool
  rawName : String
deriving DecidableEq

/-- State of an `AtlasManagerView` instance: the current selection and the
two cached attributes (`none` = attribute never assigned). -/
structure AtlasManagerView where
  currentIndex : ModelIndex
  cached_downloaded_atlases : Option (List String)
  cached_atlas_versions : Option (List (String × Bool))
deriving DecidableEq

/-- The state produced by `__init__`: the constructor wires up the model and
the double-click connection but performs no assignment to
`cached_downloaded_atlases` or `cached_atlas_versions`, and no row is
selected yet. -/
def AtlasManagerView.init : AtlasManagerView :=
  { currentIndex := { isValid := false, rawName := "" },
    cached_downloaded_atlases := none,
    cached_atlas_versions := none }

/-- `selected_atlas_name`: asserts `currentIndex.isValid()` and returns the
value of the selected row's column 0. -/
def selected_atlas_name (view : AtlasManagerView) : Except PyError String :=
  if view.currentIndex.isValid then Except.ok view.currentIndex.rawName
  else Except.error PyError.assertionError

/-- An `AtlasManagerDialog`: its constructor arguments and the slot connected
to `ok_button.clicked`.  It is opened with `.open()` (non-blocking). -/
structure AtlasManagerDialog where
  atlasName : String
  action : String
  okSlot : OkSlot
deriving DecidableEq

/-- A worker started by `_start_worker`, recording the operation, its
`atlas_name` argument, the signal connected to `worker.returned`, and the
`operation_type` captured by `update_fn`. -/
structure Worker where
  operation : Operation
  atlasName : String
  signal : ConfirmSignal
  operationType : String
deriving DecidableEq

/-- The `update_fn` closure inside `_start_worker`: one invocation with
`(completed, total)` emits `progress_updated` once with
`(completed, total, atlas_name, operation_type)`.  The view state is
returned unchanged: the closure body contains no attribute assignment. -/
def Worker.update_fn (w : Worker) (view : AtlasManagerView)
    (completed total : Nat) : AtlasManagerView × List Emission :=
  (view, [Emission.progressUpdated completed total w.atlasName w.operationType])

/-- The `worker.returned` connection made in `_start_worker`:
`lambda result: signal.emit(result)` — one emission of the completion
signal carrying the result, no attribute assignment. -/
def Worker.onReturned (w : Worker) (view : AtlasManagerView)
    (result : String) : AtlasManagerView × List Emission :=
  (view, [w.signal.emit result])

/-- One whole background task run: the external operation invokes
`fn_update` once per `(completed, total)` tick, then returns `result`,
upon which `worker.returned` fires.  Emissions are collected in order. -/
def Worker.run (w : Worker) (view : AtlasManagerView)
    (ticks : List (Nat × Nat)) (result : String) :
    AtlasManagerView × List Emission :=
  let progressed := ticks.foldl
    (fun acc ct =>
      let step := w.update_fn acc.1 ct.1 ct.2
      (step.1, acc.2 ++ step.2))
    (view, [])
  let returned := w.onReturned progressed.1 result
  (returned.1, progressed.2 ++ returned.2)

/-- `_start_worker(operation, atlas_name, signal, operation_type)`: builds and
starts exactly one worker for the given operation and atlas name. -/
def _start_worker (operation : Operation) (atlas_name : String)
    (signal : ConfirmSignal) (operation_type : String) : Worker :=
  { operation := operation, atlasName := atlas_name,
    signal := signal, operationType := operation_type }

/-- `_refresh_cached_atlases`: wholesale re-assignment of both cached
attributes from the external API. -/
def _refresh_cached_atlases (api : AtlasAPI) (view : AtlasManagerView) :
    AtlasManagerView :=
  { view with
    cached_downloaded_atlases := some (get_downloaded_atlases api),
    cached_atlas_versions := some (get_atlases_lastversions api) }

/-- `_on_row_double_clicked`: reads the selected atlas name, consults the
cached attributes, and either opens an Update dialog, opens a Download
dialog, or does nothing (`none`).  Reading an unset cached attribute raises
`AttributeError`; a missing dict key raises `KeyError`.  The view state is
returned unchanged: the method body assigns no attribute. -/
def _on_row_double_clicked (view : AtlasManagerView) :
    Except PyError (AtlasManagerView × Option AtlasManagerDialog) :=
  match selected_atlas_name view with
  | Except.error e => Except.error e
  | Except.ok atlas_name =>
    match view.cached_downloaded_atlases with
    | none => Except.error (PyError.attributeError "cached_downloaded_atlases")
    | some cached =>
      if atlas_name ∈ cached then
        match view.cached_atlas_versions with
        | none => Except.error (PyError.attributeError "cached_atlas_versions")
        | some versions =>
          match versions.lookup atlas_name with
          | none => Except.error (PyError.keyError atlas_name)
          | some up_to_date =>
            if up_to_date then Except.ok (view, none)
            else
              Except.ok (view, some
                { atlasName := atlas_name, action := "Update",
                  okSlot := OkSlot.onUpdateAtlasConfirmed })
      else
        Except.ok (view, some
          { atlasName := atlas_name, action := "Download",
            okSlot := OkSlot.onDownloadAtlasConfirmed })

/-- `_on_download_atlas_confirmed`: re-reads the selected atlas name, starts
exactly one worker running `install_atlas` with signal
`download_atlas_confirmed` and operation type `"Downloading"`, then calls
`_refresh_cached_atlases` — synchronously, before any completion of the
just-started worker can be observed. -/
def _on_download_atlas_confirmed (api : AtlasAPI) (view : AtlasManagerView) :
    Except PyError (AtlasManagerView × Worker) :=
  match selected_atlas_name view with
  | Except.error e => Except.error e
  | Except.ok atlas_name =>
    Except.ok (_refresh_cached_atlases api view,
      _start_worker Operation.installAtlas atlas_name
        ConfirmSignal.downloadAtlasConfirmed "Downloading")

/-- `_on_update_atlas_confirmed`: re-reads the selected atlas name, starts
exactly one worker running `update_atlas` with signal
`update_atlas_confirmed` and operation type `"Updating"`, then calls
`_refresh_cached_atlases` — synchronously, before any completion of the
just-started worker can be observed. -/
def _on_update_atlas_confirmed (api : AtlasAPI) (view : AtlasManagerView) :
    Except PyError (AtlasManagerView × Worker) :=
  match selected_atlas_name view with
  | Except.error e => Except.error e
  | Except.ok atlas_name =>
    Except.ok (_refresh_cached_atlases api view,
      _start_worker Operation.updateAtlas atlas_name
        ConfirmSignal.updateAtlasConfirmed "Updating")

/-- Clicking a dialog's ok button invokes the slot connected to it. -/
def AtlasManagerDialog.clickOk (d : AtlasManagerDialog) (api : AtlasAPI)
    (view : AtlasManagerView) : Except PyError (AtlasManagerView × Worker) :=
  match d.okSlot with
  | OkSlot.onDownloadAtlasConfirmed => _on_download_atlas_confirmed api view
  | OkSlot.onUpdateAtlasConfirmed => _on_update_atlas_confirmed api view

/-- `get_tooltip_text(atlas_name)` (a classmethod: it queries the external
API directly and never touches view state).  `fmt` stands for
`format_atlas_name` from `brainrender_napari/utils/formatting.py`, which is
outside the file in scope. -/
def get_tooltip_text (fmt : String → String) (api : AtlasAPI)
    (atlas_name : String) : Except PyError String :=
  if atlas_name ∈ get_downloaded_atlases api then
    match (get_atlases_lastversions api).lookup atlas_name with
    | none => Except.error (PyError.keyError atlas_name)
    | some is_up_to_date =>
      if is_up_to_date then
        Except.ok (fmt atlas_name ++ " is up-to-date")
      else
        Except.ok (fmt atlas_name ++ " (double-click to update)")
  else if atlas_name ∈ get_all_atlases_lastversions_keys api then
    Except.ok (fmt atlas_name ++ " (double-click to download)")
  else
    Except.error (PyError.valueError
      "Tooltip text called with invalid atlas name.")

/-- Recogniser for `download_atlas_confirmed` emissions. -/
def isDownloadConfirmed : Emission → Bool
  | Emission.downloadAtlasConfirmed _ => true
  | _ => false

/-- Recogniser for `update_atlas_confirmed` emissions. -/
def isUpdateConfirmed : Emission → Bool
  | Emission.updateAtlasConfirmed _ => true
  | _ => false

/-! ### Concrete instances used by witnesses and counterexamples -/

/-- A concrete external API state: two atlases downloaded (one of them
stale), one further atlas known remotely but not downloaded. -/
def apiW : AtlasAPI :=
  { downloaded_atlases := ["allen_mouse_100um", "example_mouse_100um"],
    atlases_lastversions :=
      [("allen_mouse_100um", true), ("example_mouse_100um", false)],
    all_atlases_lastversions :=
      ["allen_mouse_100um", "example_mouse_100um", "allen_mouse_25um"] }

/-- A view whose selected atlas is not in its cached downloaded-set.
Its cache is one refresh behind `apiW`. -/
def viewW : AtlasManagerView :=
  { currentIndex := { isValid := true, rawName := "allen_mouse_25um" },
    cached_downloaded_atlases := some ["allen_mouse_100um"],
    cached_atlas_versions := some [("allen_mouse_100um", true)] }

/-- A view whose selected atlas is cached as downloaded but stale. -/
def viewStale : AtlasManagerView :=
  { currentIndex := { isValid := true, rawName := "example_mouse_100um" },
    cached_downloaded_atlases :=
      some ["allen_mouse_100um", "example_mouse_100um"],
    cached_atlas_versions :=
      some [("allen_mouse_100um", true), ("example_mouse_100um", false)] }

/-- A view whose selected atlas is cached as downloaded and up to date. -/
def viewFresh : AtlasManagerView :=
  { currentIndex := { isValid := true, rawName := "allen_mouse_100um" },
    cached_downloaded_atlases :=
      some ["allen_mouse_100um", "example_mouse_100um"],
    cached_atlas_versions :=
      some [("allen_mouse_100um", true), ("example_mouse_100um", false)] }

/-! ### Helper lemmas -/

/-- A whole worker run leaves the view unchanged and emits exactly one
progress notification per tick, in order, followed by one completion
emission. -/
lemma Worker.run_emissions (w : Worker) (view : AtlasManagerView)
    (ticks : List (Nat × Nat)) (result : String) :
    w.run view ticks result =
      (view,
       (ticks.map fun ct =>
         Emission.progressUpdated ct.1 ct.2 w.atlasName w.operationType)
        ++ [w.signal.emit result]) := by
  have aux : ∀ (ts : List (Nat × Nat)) (v : AtlasManagerView)
      (acc : List Emission),
      ts.foldl
        (fun acc ct =>
          let step := w.update_fn acc.1 ct.1 ct.2
          (step.1, acc.2 ++ step.2)) (v, acc)
        = (v, acc ++ ts.map fun ct =>
            Emission.progressUpdated ct.1 ct.2 w.atlasName w.operationType) := by
    intro ts
    induction ts with
    | nil => intro v acc; simp
    | cons ct ts ih =>
      intro v acc
      rw [List.foldl_cons]
      show List.foldl _ (v, acc ++
        [Emission.progressUpdated ct.1 ct.2 w.atlasName w.operationType])
        ts = _
      rw [ih]
      simp
  simp [Worker.run, aux, Worker.onReturned]

/-- Progress emissions are filtered out by any predicate that rejects
`progressUpdated`. -/
lemma filter_progress_eq_nil (p : Emission → Bool)
    (hp : ∀ c t nm op, p (Emission.progressUpdated c t nm op) = false)
    (ticks : List (Nat × Nat)) (nm op : String) :
    (ticks.map fun ct =>
      Emission.progressUpdated ct.1 ct.2 nm op).filter p = [] := by
  induction ticks with
  | nil => rfl
  | cons ct ts ih => simp [List.filter_cons, hp, ih]

/-- The double-click handler never modifies the view state. -/
lemma double_clicked_fst (view vdc : AtlasManagerView)
    (dlg : Option AtlasManagerDialog)
    (h : _on_row_double_clicked view = Except.ok (vdc, dlg)) : vdc = view := by
  unfold _on_row_double_clicked at h
  split at h
  · exact Except.noConfusion h
  · split at h
    · exact Except.noConfusion h
    · split at h
      · split at h
        · exact Except.noConfusion h
        · split at h
          · exact Except.noConfusion h
          · split at h
            · exact (congrArg Prod.fst (Except.ok.inj h)).symm
            · exact (congrArg Prod.fst (Except.ok.inj h)).symm
      · exact (congrArg Prod.fst (Except.ok.inj h)).symm

/-- The download-confirmed handler's only state change is the wholesale
cache refresh. -/
lemma download_confirmed_fst (api : AtlasAPI) (view vdl : AtlasManagerView)
    (w : Worker)
    (h : _on_download_atlas_confirmed api view = Except.ok (vdl, w)) :
    vdl = _refresh_cached_atlases api view := by
  unfold _on_download_atlas_confirmed at h
  split at h
  · exact Except.noConfusion h
  · exact (congrArg Prod.fst (Except.ok.inj h)).symm

/-- The update-confirmed handler's only state change is the wholesale
cache refresh. -/
lemma update_confirmed_fst (api : AtlasAPI) (view vup : AtlasManagerView)
    (w : Worker)
    (h : _on_update_atlas_confirmed api view = Except.ok (vup, w)) :
    vup = _refresh_cached_atlases api view := by
  unfold _on_update_atlas_confirmed at h
  split at h
  · exact Except.noConfusion h
  · exact (congrArg Prod.fst (Except.ok.inj h)).symm

/-! ### Claims -/

/-- C1: for every atlas name `X` not in the view's cached downloaded-set,
double-clicking its row opens a Download confirmation dialog for `X`;
clicking ok on that dialog starts exactly one worker, running the install
operation on `X`, and any run of that worker emits exactly one
download-confirmed notification, carrying the run's result. -/
theorem C1_download_flow (api : AtlasAPI) (view : AtlasManagerView)
    (X : String) (d : List String)
    (hsel : selected_atlas_name view = Except.ok X)
    (hcache : view.cached_downloaded_atlases = some d)
    (hnot : X ∉ d) :
    _on_row_double_clicked view = Except.ok (view, some
      { atlasName := X, action := "Download",
        okSlot := OkSlot.onDownloadAtlasConfirmed }) ∧
    AtlasManagerDialog.clickOk
      { atlasName := X, action := "Download",
        okSlot := OkSlot.onDownloadAtlasConfirmed } api view =
      Except.ok (_refresh_cached_atlases api view,
        _start_worker Operation.installAtlas X
          ConfirmSignal.downloadAtlasConfirmed "Downloading") ∧
    ∀ (v : AtlasManagerView) (ticks : List (Nat × Nat)) (r : String),
      ((_start_worker Operation.installAtlas X
          ConfirmSignal.downloadAtlasConfirmed "Downloading").run
        v ticks r).2.filter isDownloadConfirmed =
        [Emission.downloadAtlasConfirmed r] := by
  refine ⟨?_, ?_, ?_⟩
  · simp [_on_row_double_clicked, hsel, hcache, hnot]
  · simp [AtlasManagerDialog.clickOk, _on_download_atlas_confirmed, hsel]
  · intro v ticks r
    rw [Worker.run_emissions]
    simp [List.filter_append, _start_worker,
      filter_progress_eq_nil isDownloadConfirmed (fun _ _ _ _ => rfl),
      isDownloadConfirmed, ConfirmSignal.emit]

/-- C1 witness: the download flow at the concrete view `viewW` (selected
atlas `"allen_mouse_25um"`, not cached as downloaded) and API `apiW`. -/
theorem C1_download_flow_witness :
    _on_row_double_clicked viewW = Except.ok (viewW, some
      { atlasName := "allen_mouse_25um", action := "Download",
        okSlot := OkSlot.onDownloadAtlasConfirmed }) ∧
    AtlasManagerDialog.clickOk
      { atlasName := "allen_mouse_25um", action := "Download",
        okSlot := OkSlot.onDownloadAtlasConfirmed } apiW viewW =
      Except.ok (_refresh_cached_atlases apiW viewW,
        _start_worker Operation.installAtlas "allen_mouse_25um"
          ConfirmSignal.downloadAtlasConfirmed "Downloading") ∧
    ((_start_worker Operation.installAtlas "allen_mouse_25um"
        ConfirmSignal.downloadAtlasConfirmed "Downloading").run
      viewW [(1, 2), (2, 2)] "install result").2.filter isDownloadConfirmed =
      [Emission.downloadAtlasConfirmed "install result"] := by
  have h := C1_download_flow apiW viewW "allen_mouse_25um"
    ["allen_mouse_100um"] rfl rfl (by decide)
  exact ⟨h.1, h.2.1, h.2.2 viewW [(1, 2), (2, 2)] "install result"⟩

/-- C2: for every atlas name `X` in the view's cached downloaded-set whose
cached status has `updated = false`, double-clicking its row opens an Update
confirmation dialog for `X`; clicking ok on that dialog starts exactly one
worker, running the update operation on `X`, and any run of that worker
emits exactly one update-confirmed notification, carrying the run's
result. -/
theorem C2_update_flow (api : AtlasAPI) (view : AtlasManagerView)
    (X : String) (d : List String) (vs : List (String × Bool))
    (hsel : selected_atlas_name view = Except.ok X)
    (hcache : view.cached_downloaded_atlases = some d)
    (hmem : X ∈ d)
    (hvers : view.cached_atlas_versions = some vs)
    (hstale : vs.lookup X = some false) :
    _on_row_double_clicked view = Except.ok (view, some
      { atlasName := X, action := "Update",
        okSlot := OkSlot.onUpdateAtlasConfirmed }) ∧
    AtlasManagerDialog.clickOk
      { atlasName := X, action := "Update",
        okSlot := OkSlot.onUpdateAtlasConfirmed } api view =
      Except.ok (_refresh_cached_atlases api view,
        _start_worker Operation.updateAtlas X
          ConfirmSignal.updateAtlasConfirmed "Updating") ∧
    ∀ (v : AtlasManagerView) (ticks : List (Nat × Nat)) (r : String),
      ((_start_worker Operation.updateAtlas X
          ConfirmSignal.updateAtlasConfirmed "Updating").run
        v ticks r).2.filter isUpdateConfirmed =
        [Emission.updateAtlasConfirmed r] := by
  refine ⟨?_, ?_, ?_⟩
  · simp [_on_row_double_clicked, hsel, hcache, hmem, hvers, hstale]
  · simp [AtlasManagerDialog.clickOk, _on_update_atlas_confirmed, hsel]
  · intro v ticks r
    rw [Worker.run_emissions]
    simp [List.filter_append, _start_worker,
      filter_progress_eq_nil isUpdateConfirmed (fun _ _ _ _ => rfl),
      isUpdateConfirmed, ConfirmSignal.emit]

/-- C2 witness: the update flow at the concrete view `viewStale` (selected
atlas `"example_mouse_100um"`, cached as downloaded and stale) and API
`apiW`. -/
theorem C2_update_flow_witness :
    _on_row_double_clicked viewStale = Except.ok (viewStale, some
      { atlasName := "example_mouse_100um", action := "Update",
        okSlot := OkSlot.onUpdateAtlasConfirmed }) ∧
    AtlasManagerDialog.clickOk
      { atlasName := "example_mouse_100um", action := "Update",
        okSlot := OkSlot.onUpdateAtlasConfirmed } apiW viewStale =
      Except.ok (_refresh_cached_atlases apiW viewStale,
        _start_worker Operation.updateAtlas "example_mouse_100um"
          ConfirmSignal.updateAtlasConfirmed "Updating") ∧
    ((_start_worker Operation.updateAtlas "example_mouse_100um"
        ConfirmSignal.updateAtlasConfirmed "Updating").run
      viewStale [(5, 8)] "update result").2.filter isUpdateConfirmed =
      [Emission.updateAtlasConfirmed "update result"] := by
  have h := C2_update_flow apiW viewStale "example_mouse_100um"
    ["allen_mouse_100um", "example_mouse_100um"]
    [("allen_mouse_100um", true), ("example_mouse_100um", false)]
    rfl rfl (by decide) rfl (by decide)
  exact ⟨h.1, h.2.1, h.2.2 viewStale [(5, 8)] "update result"⟩

/-- C3: `get_tooltip_text` returns "<formatted name> is up-to-date" for a
downloaded atlas whose latest-versions entry has `updated = true`,
"<formatted name> (double-click to update)" for a downloaded atlas whose
entry has `updated = false`, and "<formatted name> (double-click to
download)" for an atlas not downloaded but among the all-latest-versions
keys. -/
theorem C3_tooltip_text_cases (fmt : String → String) (api : AtlasAPI)
    (n : String) :
    (n ∈ get_downloaded_atlases api →
      (get_atlases_lastversions api).lookup n = some true →
      get_tooltip_text fmt api n = Except.ok (fmt n ++ " is up-to-date")) ∧
    (n ∈ get_downloaded_atlases api →
      (get_atlases_lastversions api).lookup n = some false →
      get_tooltip_text fmt api n =
        Except.ok (fmt n ++ " (double-click to update)")) ∧
    (n ∉ get_downloaded_atlases api →
      n ∈ get_all_atlases_lastversions_keys api →
      get_tooltip_text fmt api n =
        Except.ok (fmt n ++ " (double-click to download)")) := by
  refine ⟨?_, ?_, ?_⟩ <;> intro h1 h2 <;>
    simp [get_tooltip_text, h1, h2]

/-- C3 witness: the three tooltip cases at the concrete API `apiW`, with
the formatting function instantiated to the identity. -/
theorem C3_tooltip_text_cases_witness :
    get_tooltip_text id apiW "allen_mouse_100um" =
      Except.ok "allen_mouse_100um is up-to-date" ∧
    get_tooltip_text id apiW "example_mouse_100um" =
      Except.ok "example_mouse_100um (double-click to update)" ∧
    get_tooltip_text id apiW "allen_mouse_25um" =
      Except.ok "allen_mouse_25um (double-click to download)" :=
  ⟨(C3_tooltip_text_cases id apiW "allen_mouse_100um").1
      (by decide) (by decide),
   (C3_tooltip_text_cases id apiW "example_mouse_100um").2.1
      (by decide) (by decide),
   (C3_tooltip_text_cases id apiW "allen_mouse_25um").2.2
      (by decide) (by decide)⟩

/-- C4: under the invariant of the external API that every downloaded atlas
has a latest-versions entry, `get_tooltip_text` raises if and only if the
name is absent from both the downloaded set and the all-latest-versions
keys; for every name present in either it returns a string. -/
theorem C4_tooltip_error_iff (fmt : String → String) (api : AtlasAPI)
    (n : String)
    (hinv : ∀ m ∈ get_downloaded_atlases api,
      ((get_atlases_lastversions api).lookup m).isSome = true) :
    (∃ e, get_tooltip_text fmt api n = Except.error e) ↔
      (n ∉ get_downloaded_atlases api ∧
       n ∉ get_all_atlases_lastversions_keys api) := by
  by_cases hd : n ∈ get_downloaded_atlases api
  · obtain ⟨u, hu⟩ := Option.isSome_iff_exists.mp (hinv n hd)
    cases u <;> simp [get_tooltip_text, hd, hu]
  · by_cases ha : n ∈ get_all_atlases_lastversions_keys api
    · simp [get_tooltip_text, hd, ha]
    · simp [get_tooltip_text, hd, ha]

/-- C4 witness: at the concrete API `apiW`, a name known to neither set
makes the tooltip query raise. -/
theorem C4_tooltip_error_iff_witness :
    ∃ e, get_tooltip_text id apiW "mpin_zfish_1um" = Except.error e :=
  (C4_tooltip_error_iff id apiW "mpin_zfish_1um" (by decide)).mpr (by decide)

/-- C5: for a worker started by a confirmed download (resp. update) of the
selected atlas `X`, each invocation of the progress callback with
`(completed, total) = (c, t)` emits exactly one progress-updated
notification with payload `(c, t, X, "Downloading")` (resp.
`(c, t, X, "Updating")`), and leaves the view unchanged. -/
theorem C5_progress_relay (api : AtlasAPI) (view : AtlasManagerView)
    (X : String)
    (hsel : selected_atlas_name view = Except.ok X) :
    (∀ v w, _on_download_atlas_confirmed api view = Except.ok (v, w) →
      ∀ (view2 : AtlasManagerView) (c t : Nat),
        w.update_fn view2 c t =
          (view2, [Emission.progressUpdated c t X "Downloading"])) ∧
    (∀ v w, _on_update_atlas_confirmed api view = Except.ok (v, w) →
      ∀ (view2 : AtlasManagerView) (c t : Nat),
        w.update_fn view2 c t =
          (view2, [Emission.progressUpdated c t X "Updating"])) := by
  constructor
  · intro v w h view2 c t
    rw [_on_download_atlas_confirmed, hsel] at h
    obtain ⟨-, hw⟩ := Prod.mk.injEq .. ▸ Except.ok.inj h
    rw [← hw]
    rfl
  · intro v w h view2 c t
    rw [_on_update_atlas_confirmed, hsel] at h
    obtain ⟨-, hw⟩ := Prod.mk.injEq .. ▸ Except.ok.inj h
    rw [← hw]
    rfl

/-- C5 witness: progress relay for the worker started by the confirmed
download at `viewW` and the confirmed update at `viewStale`. -/
theorem C5_progress_relay_witness :
    (_start_worker Operation.installAtlas "allen_mouse_25um"
        ConfirmSignal.downloadAtlasConfirmed "Downloading").update_fn
      viewW 3 10 =
      (viewW, [Emission.progressUpdated 3 10 "allen_mouse_25um"
        "Downloading"]) ∧
    (_start_worker Operation.updateAtlas "example_mouse_100um"
        ConfirmSignal.updateAtlasConfirmed "Updating").update_fn
      viewStale 7 9 =
      (viewStale, [Emission.progressUpdated 7 9 "example_mouse_100um"
        "Updating"]) :=
  ⟨(C5_progress_relay apiW viewW "allen_mouse_25um" rfl).1
      (_refresh_cached_atlases apiW viewW)
      (_start_worker Operation.installAtlas "allen_mouse_25um"
        ConfirmSignal.downloadAtlasConfirmed "Downloading") rfl viewW 3 10,
   (C5_progress_relay apiW viewStale "example_mouse_100um" rfl).2
      (_refresh_cached_atlases apiW viewStale)
      (_start_worker Operation.updateAtlas "example_mouse_100um"
        ConfirmSignal.updateAtlasConfirmed "Updating") rfl viewStale 7 9⟩

/-- C6 counterexample: at the concrete API `apiW` and view `viewW`, the
confirmed-download handler itself — which runs synchronously at
confirmation time, before any completion of the started worker can be
observed — already changes the cached downloaded-set, and the completion
step (`worker.returned`) merely emits the notification, leaving the view
unchanged.  So the cached status is refreshed before the background task
completes, not on its completion. -/
theorem C6_counterexample :
    ∃ v w, _on_download_atlas_confirmed apiW viewW = Except.ok (v, w) ∧
      v.cached_downloaded_atlases ≠ viewW.cached_downloaded_atlases ∧
      w.onReturned v "result" =
        (v, [Emission.downloadAtlasConfirmed "result"]) :=
  ⟨_refresh_cached_atlases apiW viewW,
   _start_worker Operation.installAtlas "allen_mouse_25um"
     ConfirmSignal.downloadAtlasConfirmed "Downloading",
   rfl, by decide, rfl⟩

/-- C6 as amended: after a download or update is confirmed, the cached
status is refreshed immediately by the confirmation handler — after the
worker is started but before the task completes — and on completion only
the confirmation notification is emitted, with no further change to the
cached status. -/
theorem C6_refresh_at_dispatch (api : AtlasAPI) (view : AtlasManagerView)
    (X : String)
    (hsel : selected_atlas_name view = Except.ok X) :
    (∀ v w, _on_download_atlas_confirmed api view = Except.ok (v, w) →
      v = _refresh_cached_atlases api view ∧
      ∀ (view2 : AtlasManagerView) (r : String),
        w.onReturned view2 r =
          (view2, [Emission.downloadAtlasConfirmed r])) ∧
    (∀ v w, _on_update_atlas_confirmed api view = Except.ok (v, w) →
      v = _refresh_cached_atlases api view ∧
      ∀ (view2 : AtlasManagerView) (r : String),
        w.onReturned view2 r =
          (view2, [Emission.updateAtlasConfirmed r])) := by
  constructor
  · intro v w h
    obtain ⟨hv, hw⟩ : v = _refresh_cached_atlases api view ∧
        w = _start_worker Operation.installAtlas X
          ConfirmSignal.downloadAtlasConfirmed "Downloading" := by
      rw [_on_download_atlas_confirmed, hsel] at h
      exact ⟨(congrArg Prod.fst (Except.ok.inj h)).symm,
        (congrArg Prod.snd (Except.ok.inj h)).symm⟩
    exact ⟨hv, fun view2 r => by rw [hw]; rfl⟩
  · intro v w h
    obtain ⟨hv, hw⟩ : v = _refresh_cached_atlases api view ∧
        w = _start_worker Operation.updateAtlas X
          ConfirmSignal.updateAtlasConfirmed "Updating" := by
      rw [_on_update_atlas_confirmed, hsel] at h
      exact ⟨(congrArg Prod.fst (Except.ok.inj h)).symm,
        (congrArg Prod.snd (Except.ok.inj h)).symm⟩
    exact ⟨hv, fun view2 r => by rw [hw]; rfl⟩

/-- C6 amended-claim witness: refresh-at-dispatch and emit-on-completion
for the confirmed download at `viewStale`. -/
theorem C6_refresh_at_dispatch_witness :
    _refresh_cached_atlases apiW viewStale =
      _refresh_cached_atlases apiW viewStale ∧
    (_start_worker Operation.installAtlas "example_mouse_100um"
        ConfirmSignal.downloadAtlasConfirmed "Downloading").onReturned
      viewStale "res" =
      (viewStale, [Emission.downloadAtlasConfirmed "res"]) :=
  ⟨((C6_refresh_at_dispatch apiW viewStale "example_mouse_100um" rfl).1
      (_refresh_cached_atlases apiW viewStale)
      (_start_worker Operation.installAtlas "example_mouse_100um"
        ConfirmSignal.downloadAtlasConfirmed "Downloading") rfl).1 ▸ rfl,
   ((C6_refresh_at_dispatch apiW viewStale "example_mouse_100um" rfl).1
      (_refresh_cached_atlases apiW viewStale)
      (_start_worker Operation.installAtlas "example_mouse_100um"
        ConfirmSignal.downloadAtlasConfirmed "Downloading") rfl).2
      viewStale "res"⟩

/-- C7: the cached attributes are written only by the wholesale refresh.
`_refresh_cached_atlases` overwrites both cached fields with the API's
current answers, regardless of their previous contents, and changes nothing
else; the confirmation handlers' only state change is that refresh; the
double-click handler, the progress callback and the completion callback
leave the view unchanged. -/
theorem C7_cache_frame (api : AtlasAPI)
    (view view2 vdc vdl vup : AtlasManagerView)
    (dlg : Option AtlasManagerDialog) (wD wU : Worker)
    (c t : Nat) (r : String)
    (hdc : _on_row_double_clicked view = Except.ok (vdc, dlg))
    (hdl : _on_download_atlas_confirmed api view = Except.ok (vdl, wD))
    (hup : _on_update_atlas_confirmed api view = Except.ok (vup, wU)) :
    (_refresh_cached_atlases api view).cached_downloaded_atlases =
      some (get_downloaded_atlases api) ∧
    (_refresh_cached_atlases api view).cached_atlas_versions =
      some (get_atlases_lastversions api) ∧
    (_refresh_cached_atlases api view).currentIndex = view.currentIndex ∧
    vdc = view ∧
    vdl = _refresh_cached_atlases api view ∧
    vup = _refresh_cached_atlases api view ∧
    (wD.update_fn view2 c t).1 = view2 ∧
    (wD.onReturned view2 r).1 = view2 ∧
    (wU.update_fn view2 c t).1 = view2 ∧
    (wU.onReturned view2 r).1 = view2 :=
  ⟨rfl, rfl, rfl,
   double_clicked_fst view vdc dlg hdc,
   download_confirmed_fst api view vdl wD hdl,
   update_confirmed_fst api view vup wU hup,
   rfl, rfl, rfl, rfl⟩

/-- C7 witness: the frame conditions at the concrete API `apiW` and view
`viewFresh`, whose double-click is a no-op and whose confirmation handlers
succeed. -/
theorem C7_cache_frame_witness :
    (_refresh_cached_atlases apiW viewFresh).cached_downloaded_atlases =
      some ["allen_mouse_100um", "example_mouse_100um"] ∧
    (_refresh_cached_atlases apiW viewFresh).cached_atlas_versions =
      some [("allen_mouse_100um", true), ("example_mouse_100um", false)] ∧
    (_refresh_cached_atlases apiW viewFresh).currentIndex =
      viewFresh.currentIndex ∧
    viewFresh = viewFresh ∧
    _refresh_cached_atlases apiW viewFresh =
      _refresh_cached_atlases apiW viewFresh ∧
    _refresh_cached_atlases apiW viewFresh =
      _refresh_cached_atlases apiW viewFresh ∧
    ((_start_worker Operation.installAtlas "allen_mouse_100um"
        ConfirmSignal.downloadAtlasConfirmed "Downloading").update_fn
      viewW 1 4).1 = viewW ∧
    ((_start_worker Operation.installAtlas "allen_mouse_100um"
        ConfirmSignal.downloadAtlasConfirmed "Downloading").onReturned
      viewW "r").1 = viewW ∧
    ((_start_worker Operation.updateAtlas "allen_mouse_100um"
        ConfirmSignal.updateAtlasConfirmed "Updating").update_fn
      viewW 1 4).1 = viewW ∧
    ((_start_worker Operation.updateAtlas "allen_mouse_100um"
        ConfirmSignal.updateAtlasConfirmed "Updating").onReturned
      viewW "r").1 = viewW :=
  C7_cache_frame apiW viewFresh viewW viewFresh
    (_refresh_cached_atlases apiW viewFresh)
    (_refresh_cached_atlases apiW viewFresh)
    none
    (_start_worker Operation.installAtlas "allen_mouse_100um"
      ConfirmSignal.downloadAtlasConfirmed "Downloading")
    (_start_worker Operation.updateAtlas "allen_mouse_100um"
      ConfirmSignal.updateAtlasConfirmed "Updating")
    1 4 "r" rfl rfl rfl

/-- C8: for every atlas name in the view's cached downloaded-set whose
cached status has `updated = true`, double-clicking its row opens no dialog
(and hence starts no background task: workers are created only by the
dialog ok-slots). -/
theorem C8_up_to_date_noop (view : AtlasManagerView) (X : String)
    (d : List String) (vs : List (String × Bool))
    (hsel : selected_atlas_name view = Except.ok X)
    (hcache : view.cached_downloaded_atlases = some d)
    (hmem : X ∈ d)
    (hvers : view.cached_atlas_versions = some vs)
    (hup : vs.lookup X = some true) :
    _on_row_double_clicked view = Except.ok (view, none) := by
  simp [_on_row_double_clicked, hsel, hcache, hmem, hvers, hup]

/-- C8 witness: double-clicking the up-to-date atlas selected in
`viewFresh` opens no dialog. -/
theorem C8_up_to_date_noop_witness :
    _on_row_double_clicked viewFresh = Except.ok (viewFresh, none) :=
  C8_up_to_date_noop viewFresh "allen_mouse_100um"
    ["allen_mouse_100um", "example_mouse_100um"]
    [("allen_mouse_100um", true), ("example_mouse_100um", false)]
    rfl rfl (by decide) rfl (by decide)

/-- C9: when the current selection is valid, `selected_atlas_name`'s
assertion succeeds and it returns the selected row's column-0 (raw name)
value; when it is invalid, the call fails the assertion instead of
returning. -/
theorem C9_selected_atlas_name_contract (view : AtlasManagerView) :
    (view.currentIndex.isValid = true →
      selected_atlas_name view = Except.ok view.currentIndex.rawName) ∧
    (view.currentIndex.isValid = false →
      selected_atlas_name view =
        Except.error PyError.assertionError) := by
  constructor <;> intro h <;> simp [selected_atlas_name, h]

/-- C9 witness: the accessor at a view with a valid selection and at the
freshly constructed view, which has none. -/
theorem C9_selected_atlas_name_contract_witness :
    selected_atlas_name viewW = Except.ok "allen_mouse_25um" ∧
    selected_atlas_name AtlasManagerView.init =
      Except.error PyError.assertionError :=
  ⟨(C9_selected_atlas_name_contract viewW).1 rfl,
   (C9_selected_atlas_name_contract AtlasManagerView.init).2 rfl⟩

/-- C10: the constructor assigns neither cached attribute, and they are
first assigned only inside `_refresh_cached_atlases`, which runs only after
a dialog confirmation; hence on a freshly constructed view, double-clicking
any row with a valid selection — before any confirmed download/update —
reads the unset `cached_downloaded_atlases` attribute and fails with an
`AttributeError` instead of opening a dialog. -/
theorem C10_uninitialised_cache (idx : ModelIndex)
    (hvalid : idx.isValid = true) :
    AtlasManagerView.init.cached_downloaded_atlases = none ∧
    AtlasManagerView.init.cached_atlas_versions = none ∧
    _on_row_double_clicked
      { AtlasManagerView.init with currentIndex := idx } =
      Except.error (PyError.attributeError "cached_downloaded_atlases") := by
  refine ⟨rfl, rfl, ?_⟩
  simp [_on_row_double_clicked, selected_atlas_name, hvalid,
    AtlasManagerView.init]

/-- C10 witness: the first double-click on a freshly constructed view with
a concrete valid selection fails with an `AttributeError`. -/
theorem C10_uninitialised_cache_witness :
    _on_row_double_clicked
      { AtlasManagerView.init with currentIndex :=
          { isValid := true, rawName := "allen_mouse_25um" } } =
      Except.error (PyError.attributeError "cached_downloaded_atlases") :=
  (C10_uninitialised_cache
    { isValid := true, rawName := "allen_mouse_25um" } rfl).2.2

end AtlasManager
